import Mathlib

/-!
Verification of the beer-garden process supervision and liveness subsystem.

This file shallowly embeds the relevant parts of the repository:

* `src/app/beer_garden/monitor.py` — `PluginStatusMonitor` (heartbeat
  liveness sweep) and `MonitorFile` (filesystem watcher callbacks);
* `src/app/beer_garden/local_plugins/runner.py` — `read_stream`,
  `ProcessRunner` (terminate / kill / run);
* `src/app/beer_garden/local_plugins/plugin_runner.py` — `PluginRunner.kill`.

Python conventions used by the embedding:

* a Python method that can raise is embedded with an `Except PyErr` (or an
  `Option PyErr`) component in its result; a method whose body cannot raise
  returns a plain value;
* external collaborators (the document store `db`, the broker `queue`, the
  OS process table) are passed in as explicit parameters describing the
  outcome of each call the code makes to them;
* log statements are modelled as `LogEntry` values returned alongside the
  result, in the order the code emits them;
* `datetime.utcnow()` is modelled by a single integer parameter `now`
  (seconds); heartbeat timestamps are integers and `timedelta` comparison
  becomes integer comparison.
-/

set_option autoImplicit false

namespace BeerGarden

/-- Python exception values raised by the embedded code or its
collaborators. `keyError` is raised by a dict access on a missing key;
`typeError` by using call syntax on a non-callable value; `storeError` and
`transportError` stand for arbitrary exceptions raised by the persistence
store (`db.query` / `db.update`) and the broker (`queue.put`);
`exception` is any other `Exception`. -/
inductive PyErr where
  | keyError : String → PyErr
  | typeError : String → PyErr
  | storeError : String → PyErr
  | transportError : String → PyErr
  | exception : String → PyErr
  deriving DecidableEq, Repr

/-- A log statement emitted by the embedded code. `warnEx` is a warning
formatted with an exception (for example `logger.warning(msg, str(ex))`) and
`exc` is `logger.exception(msg)` / `logger.error` of a caught exception. -/
inductive LogEntry where
  | debug : String → LogEntry
  | info : String → LogEntry
  | warn : String → LogEntry
  | warnEx : String → PyErr → LogEntry
  | exc : String → PyErr → LogEntry
  deriving DecidableEq, Repr

/-- OS signals the runners send. -/
inductive Signal where
  | SIGINT : Signal
  | SIGKILL : Signal
  deriving DecidableEq, Repr

/-- Model of a `subprocess.Popen` handle as used by the runners.

* `pid` is an integer attribute of the handle (in the Python `subprocess`
  API, `Popen.pid` is a plain `int` attribute, not a method);
* `poll` is the value `poll()` returns at the time the embedded method
  runs: `none` while the process is still running, `some code` once it has
  exited. -/
structure Popen where
  pid : Int
  poll : Option Int
  deriving DecidableEq, Repr

/-- Result of using Python call syntax `v()` on an `int` attribute: an
`int` is not callable, so the call raises `TypeError` regardless of the
value. -/
def pyCallInt (_v : Int) : Except PyErr Int :=
  .error (.typeError "int object is not callable")

/-- Python `str.rstrip()` with no argument: drop trailing whitespace. -/
def pyRstrip (s : String) : String :=
  String.mk ((s.data.reverse.dropWhile Char.isWhitespace).reverse)

/-! ## Liveness monitor (`monitor.py`, `PluginStatusMonitor`) -/

/-- A brewtils `Instance` as read by the monitor: a name, a status string
and the `status_info` dict. The dict maps keys to heartbeat values, where
`none` models a present key with a falsy value (`None`) and `some t` a
timestamp (seconds). -/
structure Instance where
  name : String
  status : String
  status_info : List (String × Option Int)
  deriving DecidableEq, Repr

/-- A `System` document as returned by `db.query(System)`: the monitor only
uses its instance list. -/
structure PySystem where
  instances : List Instance
  deriving DecidableEq, Repr

/-- Python dict access `d[k]`: raises `KeyError` when the key is absent. -/
def dictGet (d : List (String × Option Int)) (k : String) : Except PyErr (Option Int) :=
  match d.lookup k with
  | some v => .ok v
  | none => .error (.keyError k)

/-- The exception component of a collaborator call outcome. -/
def updErr : Except PyErr Unit → Option PyErr
  | .ok _ => none
  | .error e => some e

/-- The monitor object: constructor arguments of `PluginStatusMonitor`
(`monitor.py` lines 20-29). `timeout` is `timedelta(seconds=timeout_seconds)`
in seconds. -/
structure PluginStatusMonitor where
  heartbeat_interval : Int
  timeout : Int
  deriving DecidableEq, Repr

namespace PluginStatusMonitor

/-- The per-instance body of `check_status` (`monitor.py` lines 58-73):
read `instance.status_info["heartbeat"]`; if it is truthy, flip a RUNNING
instance with a stale heartbeat to UNRESPONSIVE, or an
UNRESPONSIVE/STARTING/INITIALIZING/UNKNOWN instance with a fresh heartbeat
to RUNNING, persisting via `db.update(system)` whose outcome is `upd`.

Returns the instance as mutated in memory, the list of status values whose
persistence was attempted, and the exception propagating out of this
evaluation, if any. -/
def evalInstance (m : PluginStatusMonitor) (now : Int) (upd : Except PyErr Unit)
    (inst : Instance) : Instance × List String × Option PyErr :=
  match dictGet inst.status_info "heartbeat" with
  | .error e => (inst, [], some e)
  | .ok none => (inst, [], none)
  | .ok (some last_heartbeat) =>
    if inst.status = "RUNNING" ∧ m.timeout ≤ now - last_heartbeat then
      ({ inst with status := "UNRESPONSIVE" }, ["UNRESPONSIVE"], updErr upd)
    else if inst.status ∈ ["UNRESPONSIVE", "STARTING", "INITIALIZING", "UNKNOWN"]
        ∧ now - last_heartbeat < m.timeout then
      ({ inst with status := "RUNNING" }, ["RUNNING"], updErr upd)
    else
      (inst, [], none)

/-- The inner loop of `check_status` over one system's instance list
(`monitor.py` lines 54-73). `stopped` is the thread's stop flag checked at
the top of each iteration (`break` leaves this inner loop only). `upd` gives
the outcome of the `db.update` call made while evaluating the named
instance. Returns the names of the instances whose evaluation ran, the
attempted status writes, and the first propagating exception — the source
has no try/except here, so an exception ends the loop. -/
def checkInstances (m : PluginStatusMonitor) (now : Int) (stopped : Bool)
    (upd : String → Except PyErr Unit) :
    List Instance → List String × List String × Option PyErr
  | [] => ([], [], none)
  | inst :: rest =>
    if stopped then ([], [], none)
    else
      match m.evalInstance now (upd inst.name) inst with
      | (_, ws, some e) => ([inst.name], ws, some e)
      | (_, ws, none) =>
        match m.checkInstances now stopped upd rest with
        | (names, ws2, err) => (inst.name :: names, ws ++ ws2, err)

/-- The outer loop of `check_status` over the queried systems
(`monitor.py` line 53). An exception from one system's inner loop
propagates, skipping the remaining systems. -/
def checkSystems (m : PluginStatusMonitor) (now : Int) (stopped : Bool)
    (upd : String → Except PyErr Unit) :
    List PySystem → List String × List String × Option PyErr
  | [] => ([], [], none)
  | s :: rest =>
    match m.checkInstances now stopped upd s.instances with
    | (names, ws, some e) => (names, ws, some e)
    | (names, ws, none) =>
      match m.checkSystems now stopped upd rest with
      | (names2, ws2, err) => (names ++ names2, ws ++ ws2, err)

/-- `check_status` (`monitor.py` lines 50-73). `query` is the outcome of
`db.query(System)`; on a query exception nothing is evaluated and the
exception propagates. -/
def check_status (m : PluginStatusMonitor) (now : Int) (stopped : Bool)
    (upd : String → Except PyErr Unit) (query : Except PyErr (List PySystem)) :
    List String × List String × Option PyErr :=
  match query with
  | .error e => ([], [], some e)
  | .ok systems => m.checkSystems now stopped upd systems

/-- `request_status` (`monitor.py` lines 40-48). `pub` is the outcome of
`queue.put` on the broker; any exception is caught and logged as a warning,
so the method always returns normally. Returns the emitted log entries. -/
def request_status (_m : PluginStatusMonitor) (pub : Except PyErr Unit) : List LogEntry :=
  match pub with
  | .ok _ => []
  | .error e => [.warnEx "Unable to publish status request" e]

/-- The external inputs consumed by one iteration of the monitor loop:
the broker publish outcome, the `db.query` outcome, the sweep clock value
and the per-instance `db.update` outcomes. -/
structure SweepInput where
  pub : Except PyErr Unit
  query : Except PyErr (List PySystem)
  now : Int
  upd : String → Except PyErr Unit

/-- What one loop iteration produced: the log entries of `request_status`,
the evaluated instance names and attempted writes of `check_status`, and
the exception propagating out of `check_status`, if any. -/
structure SweepResult where
  log : List LogEntry
  evaluated : List String
  writes : List String
  err : Option PyErr

/-- The while loop of `run` (`monitor.py` lines 34-36): one iteration per
element of `sweeps` (each a `wait` returning false), calling
`request_status` then `check_status`. An uncaught exception from
`check_status` propagates out of `run` and ends the loop, so later sweeps
do not execute. -/
def run (m : PluginStatusMonitor) : List SweepInput → List SweepResult
  | [] => []
  | s :: rest =>
    match m.check_status s.now false s.upd s.query with
    | (names, ws, some e) => [⟨m.request_status s.pub, names, ws, some e⟩]
    | (names, ws, none) => ⟨m.request_status s.pub, names, ws, none⟩ :: m.run rest

end PluginStatusMonitor

/-! ## Stream capture (`runner.py`, `read_stream`) -/

/-- The while loop of `read_stream` (`runner.py` lines 22-27) over a trace
of observed `process.poll()` results (`true` means `poll()` returned
`None`, that is the process was still running at that check; the trace
ends when the process has certainly exited). `pending` is the content of
the shared line iterator `iter(stream.readline, "")`: when an iteration
runs, its inner for loop blocks until end-of-stream, logging every pending
line rstripped, and leaves the iterator exhausted for all later
iterations. Returns the logged lines. -/
def readStreamLoop : List Bool → List String → List String
  | [], _ => []
  | running :: polls, pending =>
    if running then pending.map pyRstrip ++ readStreamLoop polls []
    else []

/-- `read_stream` (`runner.py` lines 15-27): build the line iterator over
the complete lines the subprocess wrote, then run the poll/drain loop.
`polls` is the reader thread's sequence of `poll()` observations: whether
the first observation is `true` depends on how the reader thread is
scheduled against the process exit. -/
def read_stream (polls : List Bool) (lines : List String) : List String :=
  readStreamLoop polls lines

/-! ## Process runner (`runner.py`, `ProcessRunner`) -/

/-- The `ProcessRunner` attributes set in `__init__`
(`runner.py` lines 116-140). -/
structure ProcessRunner where
  process : Option Popen
  restart : Bool
  stopped : Bool
  dead : Bool
  runner_id : String
  instance_id : String
  process_args : List String
  process_cwd : String
  runner_name : String
  capture_streams : Bool
  deriving DecidableEq, Repr

namespace ProcessRunner

/-- `state` (`runner.py` lines 145-155): the pickleable snapshot dict. -/
def state (r : ProcessRunner) : List (String × String) :=
  [("runner_name", r.runner_name),
   ("runner_id", r.runner_id),
   ("instance_id", r.instance_id),
   ("restart", toString r.restart),
   ("stopped", toString r.stopped),
   ("dead", toString r.dead)]

/-- `associate` (`runner.py` lines 157-159). -/
def associate (r : ProcessRunner) (instId : String) : ProcessRunner :=
  { r with instance_id := instId }

/-- `terminate` (`runner.py` lines 161-165): when `self.process` is truthy
and `self.process.poll() is None`, log a debug line and run
`os.kill(self.process.pid(), signal.SIGINT)`. Note the source calls
`self.process.pid()` although `Popen.pid` is an `int` attribute, so the
call raises before any signal is sent. Returns the (unmutated) runner, the
emitted log entries, and either the sent signals or the raised
exception. -/
def terminate (r : ProcessRunner) : ProcessRunner × List LogEntry × Except PyErr (List Signal) :=
  match r.process with
  | none => (r, [], .ok [])
  | some p =>
    match p.poll with
    | some _ => (r, [], .ok [])
    | none =>
      match pyCallInt p.pid with
      | .error e => (r, [.debug "About to send SIGINT"], .error e)
      | .ok _ => (r, [.debug "About to send SIGINT"], .ok [Signal.SIGINT])

/-- `kill` (`runner.py` lines 167-171): when the process exists and is
still running, log a warning and call `self.process.kill()` (the method —
this one cannot raise). Returns the runner, the logs and the sent
signals. -/
def kill (r : ProcessRunner) : ProcessRunner × List LogEntry × List Signal :=
  match r.process with
  | none => (r, [], [])
  | some p =>
    match p.poll with
    | some _ => (r, [], [])
    | none => (r, [.warn "About to send SIGKILL"], [Signal.SIGKILL])

/-- `run` (`runner.py` lines 173-204). `spawn` is the outcome of the
`subprocess.Popen` call; `supervise` the outcome of the
`with StreamReader(self): self.process.wait()` block together with the
subsequent logging. The whole body sits inside `try ... except Exception`,
whose handler logs the exception, so `run` always returns normally — the
return type has no exception component — and the runner thread then
terminates. -/
def run (r : ProcessRunner) (spawn : Except PyErr Popen) (supervise : Except PyErr Unit) :
    ProcessRunner × List LogEntry :=
  match spawn with
  | .error e => (r, [.debug "Starting process", .exc "Plugin died" e])
  | .ok p =>
    let rp := { r with process := some p }
    match supervise with
    | .error e => (rp, [.debug "Starting process", .exc "Plugin died" e])
    | .ok _ =>
      (rp,
        [LogEntry.debug "Starting process"]
        ++ (if rp.instance_id = "" then
              [LogEntry.warn "Plugin terminated before successfully initializing"]
            else [])
        ++ [LogEntry.debug "Plugin is officially stopped"])

end ProcessRunner

/-! ## Plugin runner (`plugin_runner.py`, `PluginRunner`) -/

/-- The `PluginRunner` attributes `kill` uses (`plugin_runner.py`
lines 24-59). -/
structure PluginRunner where
  unique_name : String
  process : Option Popen
  deriving DecidableEq, Repr

namespace PluginRunner

/-- `kill` (`plugin_runner.py` lines 61-66): when the process exists and
`poll()` is `None`, log, call the `process.kill()` method, log again.
Cannot raise. -/
def kill (q : PluginRunner) : PluginRunner × List LogEntry × List Signal :=
  match q.process with
  | none => (q, [], [])
  | some p =>
    match p.poll with
    | some _ => (q, [], [])
    | none =>
      (q, [.warn "About to kill plugin", .warn "Plugin has been killed"], [Signal.SIGKILL])

end PluginRunner

/-! ## Filesystem watcher (`monitor.py`, `MonitorFile`) -/

/-- A filesystem occurrence kind, as dispatched by the watchdog
`PatternMatchingEventHandler` the watcher installs callbacks on. -/
inductive FsOccurrence where
  | created : FsOccurrence
  | modified : FsOccurrence
  | moved : FsOccurrence
  | deleted : FsOccurrence
  deriving DecidableEq, Repr

/-- The `MonitorFile` attributes (`monitor.py` lines 77-108): the watched
path and the four optional domain events. -/
structure MonitorFile where
  file : String
  create_event : Option String
  modified_event : Option String
  moved_event : Option String
  deleted_event : Option String
  deriving DecidableEq, Repr

namespace MonitorFile

/-- `on_created` (`monitor.py` lines 110-116): publish the create event if
one was configured. Returns the published events. -/
def on_created (m : MonitorFile) : List String :=
  match m.create_event with
  | some ev => [ev]
  | none => []

/-- `on_modified` (`monitor.py` lines 118-123). -/
def on_modified (m : MonitorFile) : List String :=
  match m.modified_event with
  | some ev => [ev]
  | none => []

/-- `on_moved` (`monitor.py` lines 125-130). -/
def on_moved (m : MonitorFile) : List String :=
  match m.moved_event with
  | some ev => [ev]
  | none => []

/-- `on_deleted` (`monitor.py` lines 132-138). -/
def on_deleted (m : MonitorFile) : List String :=
  match m.deleted_event with
  | some ev => [ev]
  | none => []

/-- The callback the handler dispatches one delivered occurrence to
(`monitor.py` lines 99-102 install one callback per occurrence kind). -/
def handle (m : MonitorFile) : FsOccurrence → List String
  | .created => m.on_created
  | .modified => m.on_modified
  | .moved => m.on_moved
  | .deleted => m.on_deleted

/-- Specification-side view: the configured event for an occurrence kind
(spec section 3, "Watch subscription"). -/
def configuredEvent (m : MonitorFile) : FsOccurrence → Option String
  | .created => m.create_event
  | .modified => m.modified_event
  | .moved => m.moved_event
  | .deleted => m.deleted_event

/-- All events published for a sequence of delivered occurrences on the
watched file, in delivery order. -/
def publishAll (m : MonitorFile) (occs : List FsOccurrence) : List String :=
  (occs.map m.handle).flatten

end MonitorFile

/-! ## Helper lemmas -/

/-- Any status value written by one instance evaluation is UNRESPONSIVE or
RUNNING. -/
theorem evalInstance_write_vals {m : PluginStatusMonitor} {now : Int}
    {upd : Except PyErr Unit} {inst : Instance} {w : String}
    (hw : w ∈ (m.evalInstance now upd inst).2.1) :
    w = "UNRESPONSIVE" ∨ w = "RUNNING" := by
  unfold PluginStatusMonitor.evalInstance at hw
  split at hw
  · simp at hw
  · simp at hw
  · split_ifs at hw <;> simp at hw <;> simp [hw]

/-- Any status value written by the inner instance loop is UNRESPONSIVE or
RUNNING. -/
theorem checkInstances_write_vals {m : PluginStatusMonitor} {now : Int} {stopped : Bool}
    {upd : String → Except PyErr Unit} {insts : List Instance} {w : String}
    (hw : w ∈ (m.checkInstances now stopped upd insts).2.1) :
    w = "UNRESPONSIVE" ∨ w = "RUNNING" := by
  induction insts with
  | nil => simp [PluginStatusMonitor.checkInstances] at hw
  | cons inst rest ih =>
    unfold PluginStatusMonitor.checkInstances at hw
    split_ifs at hw
    · simp at hw
    · rcases hr : m.evalInstance now (upd inst.name) inst with ⟨i2, ws, err⟩
      rw [hr] at hw
      have hws : ∀ x ∈ ws, x = "UNRESPONSIVE" ∨ x = "RUNNING" := by
        intro x hx
        refine @evalInstance_write_vals m now (upd inst.name) inst x ?_
        rw [hr]
        exact hx
      cases err with
      | some e =>
        simp only at hw
        exact hws w hw
      | none =>
        rcases ht : m.checkInstances now stopped upd rest with ⟨names2, ws2, err2⟩
        rw [ht] at hw
        simp only [List.mem_append] at hw
        rcases hw with hw | hw
        · exact hws w hw
        · apply ih
          rw [ht]
          exact hw

/-- Any status value written by the outer system loop is UNRESPONSIVE or
RUNNING. -/
theorem checkSystems_write_vals {m : PluginStatusMonitor} {now : Int} {stopped : Bool}
    {upd : String → Except PyErr Unit} {systems : List PySystem} {w : String}
    (hw : w ∈ (m.checkSystems now stopped upd systems).2.1) :
    w = "UNRESPONSIVE" ∨ w = "RUNNING" := by
  induction systems with
  | nil => simp [PluginStatusMonitor.checkSystems] at hw
  | cons s rest ih =>
    unfold PluginStatusMonitor.checkSystems at hw
    rcases hr : m.checkInstances now stopped upd s.instances with ⟨names, ws, err⟩
    rw [hr] at hw
    have hws : ∀ x ∈ ws, x = "UNRESPONSIVE" ∨ x = "RUNNING" := by
      intro x hx
      refine @checkInstances_write_vals m now stopped upd s.instances x ?_
      rw [hr]
      exact hx
    cases err with
    | some e =>
      simp only at hw
      exact hws w hw
    | none =>
      rcases ht : m.checkSystems now stopped upd rest with ⟨names2, ws2, err2⟩
      rw [ht] at hw
      simp only [List.mem_append] at hw
      rcases hw with hw | hw
      · exact hws w hw
      · apply ih
        rw [ht]
        exact hw

/-- The drain loop logs nothing once the line iterator is exhausted. -/
theorem readStreamLoop_exhausted (polls : List Bool) : readStreamLoop polls [] = [] := by
  induction polls with
  | nil => rfl
  | cons p ps ih => simp [readStreamLoop, ih]

/-- The installed create callback publishes exactly the configured create
event. -/
theorem on_created_toList (m : MonitorFile) : m.on_created = m.create_event.toList := by
  unfold MonitorFile.on_created
  cases m.create_event <;> rfl

/-- The installed modify callback publishes exactly the configured modify
event. -/
theorem on_modified_toList (m : MonitorFile) : m.on_modified = m.modified_event.toList := by
  unfold MonitorFile.on_modified
  cases m.modified_event <;> rfl

/-- The installed move callback publishes exactly the configured move
event. -/
theorem on_moved_toList (m : MonitorFile) : m.on_moved = m.moved_event.toList := by
  unfold MonitorFile.on_moved
  cases m.moved_event <;> rfl

/-- The installed delete callback publishes exactly the configured delete
event. -/
theorem on_deleted_toList (m : MonitorFile) : m.on_deleted = m.deleted_event.toList := by
  unfold MonitorFile.on_deleted
  cases m.deleted_event <;> rfl

/-- A successful instance evaluation prefix followed by a failing one:
the failing evaluation ends the inner loop with the exception, and no
later instance is evaluated. -/
theorem checkInstances_error_stops {m : PluginStatusMonitor} {now : Int}
    {upd : String → Except PyErr Unit} {e : PyErr} :
    ∀ (pre : List Instance) (inst : Instance) (post : List Instance),
    (∀ i ∈ pre, (m.evalInstance now (upd i.name) i).2.2 = none) →
    (m.evalInstance now (upd inst.name) inst).2.2 = some e →
    (m.checkInstances now false upd (pre ++ inst :: post)).1
        = pre.map (fun i => i.name) ++ [inst.name] ∧
    (m.checkInstances now false upd (pre ++ inst :: post)).2.2 = some e := by
  intro pre
  induction pre with
  | nil =>
    intro inst post _ hinst
    rcases hr : m.evalInstance now (upd inst.name) inst with ⟨i2, ws, err⟩
    rw [hr] at hinst
    simp only at hinst
    subst hinst
    simp [PluginStatusMonitor.checkInstances, hr]
  | cons i pre2 ih =>
    intro inst post hpre hinst
    have hi : (m.evalInstance now (upd i.name) i).2.2 = none := hpre i (by simp)
    have hrest := ih inst post (fun j hj => hpre j (by simp [hj])) hinst
    rcases hr : m.evalInstance now (upd i.name) i with ⟨i2, ws, err⟩
    rw [hr] at hi
    simp only at hi
    subst hi
    rcases ht : m.checkInstances now false upd (pre2 ++ inst :: post) with ⟨names, ws2, err2⟩
    rw [ht] at hrest
    simp only at hrest
    simp [PluginStatusMonitor.checkInstances, hr, ht, hrest.1, hrest.2]

/-! ## Claims -/

/-- Claim C1: on every monitor sweep, for every known instance with a
heartbeat timestamp: if its status is RUNNING and now minus lastHeartbeat
is at least the timeout, the sweep sets the status to UNRESPONSIVE; if its
status is one of UNRESPONSIVE, STARTING, INITIALIZING, UNKNOWN and now
minus lastHeartbeat is below the timeout, the sweep sets the status to
RUNNING; in any other combination the status is left unchanged. -/
theorem check_status_state_machine (m : PluginStatusMonitor) (now hb : Int)
    (upd : Except PyErr Unit) (inst : Instance)
    (hhb : dictGet inst.status_info "heartbeat" = .ok (some hb)) :
    (m.evalInstance now upd inst).1.status =
      if inst.status = "RUNNING" ∧ m.timeout ≤ now - hb then "UNRESPONSIVE"
      else if inst.status ∈ ["UNRESPONSIVE", "STARTING", "INITIALIZING", "UNKNOWN"]
          ∧ now - hb < m.timeout then "RUNNING"
      else inst.status := by
  unfold PluginStatusMonitor.evalInstance
  rw [hhb]
  dsimp only
  split_ifs <;> rfl

/-- Witness for C1 at a concrete stale RUNNING instance. -/
theorem check_status_state_machine_witness :
    dictGet [("heartbeat", some (50 : Int))] "heartbeat" = .ok (some 50) ∧
    (PluginStatusMonitor.evalInstance ⟨10, 30⟩ 100 (.ok ())
        { name := "i1", status := "RUNNING", status_info := [("heartbeat", some 50)] }).1.status
      = "UNRESPONSIVE" :=
  ⟨rfl,
    (check_status_state_machine ⟨10, 30⟩ 100 50 (.ok ())
      { name := "i1", status := "RUNNING", status_info := [("heartbeat", some 50)] }
      rfl).trans (by decide)⟩

/-- Claim C2: the only status values the liveness sweep ever writes are
UNRESPONSIVE and RUNNING; it never writes STOPPED or DEAD. -/
theorem check_status_writes_only_unresponsive_running (m : PluginStatusMonitor)
    (now : Int) (stopped : Bool) (upd : String → Except PyErr Unit)
    (query : Except PyErr (List PySystem)) (w : String)
    (hw : w ∈ (m.check_status now stopped upd query).2.1) :
    (w = "UNRESPONSIVE" ∨ w = "RUNNING") ∧ w ≠ "STOPPED" ∧ w ≠ "DEAD" := by
  unfold PluginStatusMonitor.check_status at hw
  have hwv : w = "UNRESPONSIVE" ∨ w = "RUNNING" := by
    split at hw
    · simp at hw
    · exact checkSystems_write_vals hw
  refine ⟨hwv, ?_, ?_⟩ <;> rcases hwv with h | h <;> simp [h]

/-- Witness for C2 at a sweep that writes UNRESPONSIVE for a stale RUNNING
instance. -/
theorem check_status_writes_only_unresponsive_running_witness :
    "UNRESPONSIVE" ∈ (PluginStatusMonitor.check_status ⟨10, 30⟩ 100 false (fun _ => .ok ())
        (.ok [⟨[{ name := "i1", status := "RUNNING",
                  status_info := [("heartbeat", some 50)] }]⟩])).2.1 ∧
    (("UNRESPONSIVE" = "UNRESPONSIVE" ∨ "UNRESPONSIVE" = "RUNNING") ∧
      "UNRESPONSIVE" ≠ "STOPPED" ∧ "UNRESPONSIVE" ≠ "DEAD") :=
  ⟨List.mem_singleton.mpr rfl,
    check_status_writes_only_unresponsive_running ⟨10, 30⟩ 100 false (fun _ => .ok ())
      (.ok [⟨[{ name := "i1", status := "RUNNING",
                status_info := [("heartbeat", some 50)] }]⟩]) "UNRESPONSIVE"
      (List.mem_singleton.mpr rfl)⟩

/-- Counterexample to C3 as stated: with two stale RUNNING instances and a
store that fails the update for the first, the exception propagates out of
the sweep uncaught and the second instance is never evaluated — the claim
says the failure is logged, the instance skipped and the sweep continues. -/
theorem check_status_store_error_not_isolated :
    (PluginStatusMonitor.check_status ⟨10, 30⟩ 100 false
        (fun n => if n = "i1" then .error (.storeError "store down") else .ok ())
        (.ok [⟨[{ name := "i1", status := "RUNNING", status_info := [("heartbeat", some 50)] },
                { name := "i2", status := "RUNNING",
                  status_info := [("heartbeat", some 50)] }]⟩])).2.2
      = some (.storeError "store down") ∧
    "i2" ∉ (PluginStatusMonitor.check_status ⟨10, 30⟩ 100 false
        (fun n => if n = "i1" then .error (.storeError "store down") else .ok ())
        (.ok [⟨[{ name := "i1", status := "RUNNING", status_info := [("heartbeat", some 50)] },
                { name := "i2", status := "RUNNING",
                  status_info := [("heartbeat", some 50)] }]⟩])).1 := by
  constructor
  · rfl
  · decide

/-- Claim C3 (amended): when the store raises during one instance
evaluation, the exception propagates uncaught out of check_status — the
sweep reports exactly the instances up to and including the failing one as
evaluated, and the remaining instances are not evaluated. -/
theorem check_status_store_error_aborts_sweep (m : PluginStatusMonitor) (now : Int)
    (upd : String → Except PyErr Unit) (pre : List Instance) (inst : Instance)
    (post : List Instance) (e : PyErr)
    (hpre : ∀ i ∈ pre, (m.evalInstance now (upd i.name) i).2.2 = none)
    (hinst : (m.evalInstance now (upd inst.name) inst).2.2 = some e) :
    (m.check_status now false upd (.ok [⟨pre ++ inst :: post⟩])).1
        = pre.map (fun i => i.name) ++ [inst.name] ∧
    (m.check_status now false upd (.ok [⟨pre ++ inst :: post⟩])).2.2 = some e := by
  have h := checkInstances_error_stops pre inst post hpre hinst
  rcases ht : m.checkInstances now false upd (pre ++ inst :: post) with ⟨names, ws, err⟩
  rw [ht] at h
  simp only at h
  obtain ⟨h1, h2⟩ := h
  subst h2
  constructor <;>
    simp [PluginStatusMonitor.check_status, PluginStatusMonitor.checkSystems, ht, h1]

/-- Witness for the amended C3 at a concrete two-instance sweep. -/
theorem check_status_store_error_aborts_sweep_witness :
    (∀ i ∈ ([] : List Instance),
      (PluginStatusMonitor.evalInstance ⟨10, 30⟩ 100
        ((fun _ => Except.error (PyErr.storeError "store down")) i.name) i).2.2 = none) ∧
    (PluginStatusMonitor.evalInstance ⟨10, 30⟩ 100
        (Except.error (PyErr.storeError "store down"))
        { name := "i1", status := "RUNNING", status_info := [("heartbeat", some 50)] }).2.2
      = some (.storeError "store down") ∧
    (PluginStatusMonitor.check_status ⟨10, 30⟩ 100 false
        (fun _ => .error (.storeError "store down"))
        (.ok [⟨[{ name := "i1", status := "RUNNING", status_info := [("heartbeat", some 50)] },
                { name := "i2", status := "RUNNING",
                  status_info := [("heartbeat", some 50)] }]⟩])).1 = ["i1"] := by
  refine ⟨by simp, rfl, ?_⟩
  have h := check_status_store_error_aborts_sweep ⟨10, 30⟩ 100
    (fun _ => .error (.storeError "store down")) []
    { name := "i1", status := "RUNNING", status_info := [("heartbeat", some 50)] }
    [{ name := "i2", status := "RUNNING", status_info := [("heartbeat", some 50)] }]
    (.storeError "store down") (by simp) rfl
  simpa using h.1

/-- Claim C4 (code bug): terminate on a runner whose process is still
running raises TypeError instead of sending SIGINT and returning normally:
the source calls `self.process.pid()` although `Popen.pid` is an int
attribute, not a method. -/
theorem terminate_running_process_raises_typeerror :
    (ProcessRunner.terminate
        { process := some { pid := 42, poll := none }, restart := false, stopped := false,
          dead := false, runner_id := "runner-1", instance_id := "",
          process_args := ["python", "entry.py"], process_cwd := "/plugins/echo",
          runner_name := "echo", capture_streams := false }).2.2
      = .error (.typeError "int object is not callable") := rfl

/-- Counterexample to C5 as stated: a complete line written by a process
that exits before the reader thread first observes it running is never
logged, rather than logged exactly once. -/
theorem read_stream_line_lost_on_fast_exit :
    read_stream [false] ["hello\n"] = [] ∧ pyRstrip "hello\n" = "hello" := ⟨rfl, rfl⟩

/-- Claim C5 (amended): provided the reader observes the process still
running at its first poll, every complete line the subprocess wrote to the
stream is logged exactly once, in the order written. -/
theorem read_stream_logs_each_line_once_in_order (polls : List Bool) (lines : List String)
    (h : polls.head? = some true) :
    read_stream polls lines = lines.map pyRstrip := by
  cases polls with
  | nil => simp at h
  | cons p ps =>
    simp only [List.head?, Option.some.injEq] at h
    subst h
    simp [read_stream, readStreamLoop, readStreamLoop_exhausted]

/-- Witness for the amended C5 at a concrete two-line run. -/
theorem read_stream_logs_each_line_once_in_order_witness :
    ([true] : List Bool).head? = some true ∧
    read_stream [true] ["a\n", "b"] = ["a", "b"] :=
  ⟨rfl, (read_stream_logs_each_line_once_in_order [true] ["a\n", "b"] rfl).trans rfl⟩

/-- Claim C6: a broker publish failure during a sweep is caught and logged
as a warning, the same sweep still performs its status check, and the
monitor loop proceeds to execute the next sweep. -/
theorem run_survives_publish_failure (m : PluginStatusMonitor)
    (s : PluginStatusMonitor.SweepInput)
    (rest : List PluginStatusMonitor.SweepInput) (e : PyErr)
    (hpub : s.pub = .error e)
    (hok : (m.check_status s.now false s.upd s.query).2.2 = none) :
    m.run (s :: rest) =
      { log := [.warnEx "Unable to publish status request" e],
        evaluated := (m.check_status s.now false s.upd s.query).1,
        writes := (m.check_status s.now false s.upd s.query).2.1,
        err := none } :: m.run rest := by
  rcases hr : m.check_status s.now false s.upd s.query with ⟨names, ws, err⟩
  rw [hr] at hok
  simp only at hok
  subst hok
  simp [PluginStatusMonitor.run, PluginStatusMonitor.request_status, hpub, hr]

/-- Witness for C6: a failing publish on the first of two sweeps. -/
theorem run_survives_publish_failure_witness :
    (⟨.error (.transportError "broker down"), .ok [], 0, fun _ => .ok ()⟩
        : PluginStatusMonitor.SweepInput).pub
        = .error (.transportError "broker down") ∧
    (PluginStatusMonitor.check_status ⟨10, 30⟩ 0 false (fun _ => .ok ()) (.ok [])).2.2
        = none ∧
    PluginStatusMonitor.run ⟨10, 30⟩
        [⟨.error (.transportError "broker down"), .ok [], 0, fun _ => .ok ()⟩,
         ⟨.ok (), .ok [], 10, fun _ => .ok ()⟩] =
      { log := [.warnEx "Unable to publish status request" (.transportError "broker down")],
        evaluated := [], writes := [], err := none }
        :: PluginStatusMonitor.run ⟨10, 30⟩ [⟨.ok (), .ok [], 10, fun _ => .ok ()⟩] := by
  refine ⟨rfl, rfl, ?_⟩
  exact run_survives_publish_failure ⟨10, 30⟩ _ _ _ rfl rfl

/-- Claim C7: every failure raised while spawning or supervising the plugin
process is caught by run, which logs it and returns normally — its return
type has no exception component, so nothing propagates to the caller and
the runner thread reaches its end. -/
theorem processrunner_run_catches_failures (r : ProcessRunner) (spawn : Except PyErr Popen)
    (supervise : Except PyErr Unit) (e : PyErr)
    (h : spawn = .error e ∨ ∃ p, spawn = .ok p ∧ supervise = .error e) :
    (ProcessRunner.run r spawn supervise).2.getLast? = some (.exc "Plugin died" e) := by
  rcases h with h | ⟨p, hs, he⟩
  · subst h
    rfl
  · subst hs
    subst he
    rfl

/-- Witness for C7 at a failing spawn. -/
theorem processrunner_run_catches_failures_witness :
    ((Except.error (PyErr.exception "boom") : Except PyErr Popen)
        = .error (.exception "boom") ∨
      ∃ p, (Except.error (PyErr.exception "boom") : Except PyErr Popen) = .ok p ∧
        (Except.ok () : Except PyErr Unit) = .error (.exception "boom")) ∧
    (ProcessRunner.run
        { process := none, restart := false, stopped := false, dead := false,
          runner_id := "runner-1", instance_id := "", process_args := ["python", "entry.py"],
          process_cwd := "/plugins/echo", runner_name := "echo", capture_streams := true }
        (.error (.exception "boom")) (.ok ())).2.getLast?
      = some (.exc "Plugin died" (.exception "boom")) := by
  refine ⟨Or.inl rfl, ?_⟩
  exact processrunner_run_catches_failures _ _ _ _ (Or.inl rfl)

/-- Claim C8: each delivered occurrence on the watched file publishes the
configured event for its kind exactly once and publishes nothing when that
event is not configured; a delete-then-recreate publishes the delete event
and then the create event, not a single modify event. -/
theorem monitorfile_publishes_configured_event (m : MonitorFile) (occ : FsOccurrence)
    (cr del : String) (hc : m.create_event = some cr) (hd : m.deleted_event = some del) :
    m.handle occ = (m.configuredEvent occ).toList ∧
    m.publishAll [.deleted, .created] = [del, cr] := by
  constructor
  · cases occ <;>
      simp [MonitorFile.handle, MonitorFile.configuredEvent, on_created_toList,
        on_modified_toList, on_moved_toList, on_deleted_toList]
  · simp [MonitorFile.publishAll, MonitorFile.handle, MonitorFile.on_created,
      MonitorFile.on_deleted, hc, hd]

/-- Witness for C8 at a watcher configured with create and delete events
but no modify event. -/
theorem monitorfile_publishes_configured_event_witness :
    (MonitorFile.mk "/conf/f.yaml" (some "cr_ev") none none (some "del_ev")).create_event
        = some "cr_ev" ∧
    (MonitorFile.mk "/conf/f.yaml" (some "cr_ev") none none (some "del_ev")).deleted_event
        = some "del_ev" ∧
    (MonitorFile.mk "/conf/f.yaml" (some "cr_ev") none none (some "del_ev")).handle .created
        = ["cr_ev"] ∧
    (MonitorFile.mk "/conf/f.yaml" (some "cr_ev") none none (some "del_ev")).publishAll
        [.deleted, .created] = ["del_ev", "cr_ev"] := by
  have h := monitorfile_publishes_configured_event
    (MonitorFile.mk "/conf/f.yaml" (some "cr_ev") none none (some "del_ev"))
    .created "cr_ev" "del_ev" rfl rfl
  exact ⟨rfl, rfl, h.1.trans rfl, h.2⟩

/-- Claim C9: an instance whose persisted record has no heartbeat value —
the status_info key holds a falsy value, or the key is absent entirely —
is left with its status (indeed its whole record) unchanged by the sweep,
whatever its current status is, and no status write is attempted. -/
theorem evalInstance_no_heartbeat_unchanged (m : PluginStatusMonitor) (now : Int)
    (upd : Except PyErr Unit) (inst : Instance)
    (h : inst.status_info.lookup "heartbeat" = none ∨
        inst.status_info.lookup "heartbeat" = some none) :
    (m.evalInstance now upd inst).1 = inst ∧ (m.evalInstance now upd inst).2.1 = [] := by
  rcases h with h | h <;> simp [PluginStatusMonitor.evalInstance, dictGet, h]

/-- Witness for C9 at a STARTING instance with no heartbeat key. -/
theorem evalInstance_no_heartbeat_unchanged_witness :
    (([] : List (String × Option Int)).lookup "heartbeat" = none ∨
      ([] : List (String × Option Int)).lookup "heartbeat" = some none) ∧
    (PluginStatusMonitor.evalInstance ⟨10, 30⟩ 100 (.ok ())
        { name := "i1", status := "STARTING", status_info := [] }).1
      = { name := "i1", status := "STARTING", status_info := [] } ∧
    (PluginStatusMonitor.evalInstance ⟨10, 30⟩ 100 (.ok ())
        { name := "i1", status := "STARTING", status_info := [] }).2.1 = [] := by
  refine ⟨Or.inl rfl, ?_, ?_⟩
  · exact (evalInstance_no_heartbeat_unchanged ⟨10, 30⟩ 100 (.ok ())
      { name := "i1", status := "STARTING", status_info := [] } (Or.inl rfl)).1
  · exact (evalInstance_no_heartbeat_unchanged ⟨10, 30⟩ 100 (.ok ())
      { name := "i1", status := "STARTING", status_info := [] } (Or.inl rfl)).2

/-- Claim C10: calling terminate or kill on a runner whose process has not
been spawned is a safe no-op: no signal is sent, no exception is raised,
and the runner value is unchanged; likewise for PluginRunner.kill. -/
theorem terminate_kill_no_process_noop (r : ProcessRunner) (q : PluginRunner)
    (hr : r.process = none) (hq : q.process = none) :
    ProcessRunner.terminate r = (r, [], .ok []) ∧
    ProcessRunner.kill r = (r, [], []) ∧
    PluginRunner.kill q = (q, [], []) := by
  refine ⟨?_, ?_, ?_⟩ <;>
    simp [ProcessRunner.terminate, ProcessRunner.kill, PluginRunner.kill, hr, hq]

/-- Witness for C10 at a runner and a plugin runner with no process. -/
theorem terminate_kill_no_process_noop_witness :
    ({ process := none, restart := false, stopped := false, dead := false,
        runner_id := "runner-1", instance_id := "", process_args := ["python", "entry.py"],
        process_cwd := "/plugins/echo", runner_name := "echo",
        capture_streams := true } : ProcessRunner).process = none ∧
    ({ unique_name := "echo[default]-1.0.0", process := none } : PluginRunner).process
        = none ∧
    ProcessRunner.terminate
        { process := none, restart := false, stopped := false, dead := false,
          runner_id := "runner-1", instance_id := "", process_args := ["python", "entry.py"],
          process_cwd := "/plugins/echo", runner_name := "echo", capture_streams := true }
      = ({ process := none, restart := false, stopped := false, dead := false,
            runner_id := "runner-1", instance_id := "", process_args := ["python", "entry.py"],
            process_cwd := "/plugins/echo", runner_name := "echo",
            capture_streams := true }, [], .ok []) := by
  refine ⟨rfl, rfl, ?_⟩
  exact (terminate_kill_no_process_noop _
    { unique_name := "echo[default]-1.0.0", process := none } rfl rfl).1

end BeerGarden
